import Mathlib

/-!
Verification development for the payments/settlement service
(`src/services/payments/payments.service.ts`).

The three public entry points `chargeSubscription`, `chargeDonation` and
`chargePromotion` are embedded as pure functions over an explicit
environment `Env` that supplies the results of every external call
(user repository, public-key parsing, balance oracle, keypair derivation,
transaction submission, entitlement writes).  Each external call may
either return a value (`Except.ok`) or throw (`Except.error`); the
embedding threads a trace of observable effects (balance queries,
transfer submissions, entitlement mutations) alongside the result, and a
result of `Except.error e` models an exception escaping the entry point.
-/

/-- Reason codes returned by the payment workflows (PaymentsMessageEnum in
the source constants). -/
inductive PaymentsMessageEnum
  | NO_USER_FOUND
  | USER_ALREADY_PAID
  | INVALID_PLAN
  | INSUFFICIENT_BALANCE
  | INTERNAL_ERROR
  | PLAN_UPGRADED
  | DONATION_MADE
  | TRANSACTION_SUCCESS
deriving DecidableEq, Repr

/-- Modelled from the spec: the subscription plan enumeration (SubscriptionPlan
from the database package, not under src/).  The spec gives the ordered
enumeration FREE < HOBBY < PRO; FREE has no price entry, which makes the
INVALID_PLAN branch of the source reachable. -/
inductive SubscriptionPlan
  | FREE
  | HOBBY
  | PRO
deriving DecidableEq, Repr

/-- Modelled from the spec: BoostsSubscriptionPlan (src/typings, not under
src/) — the plan identifiers a caller may request; identified with the full
plan enumeration. -/
abbrev BoostsSubscriptionPlan := SubscriptionPlan

/-- Modelled from the spec: the platform tag (ApplicationPlatform from the
database package, not under src/).  BOOSTS is the tag observed in the source;
OTHER stands for any further platform so that per-platform lookups are not
vacuous. -/
inductive ApplicationPlatform
  | BOOSTS
  | OTHER
deriving DecidableEq, Repr

/-- Modelled from the spec: the promotion type tag (PromotionType from the
database package, not under src/); the workflow treats it opaquely, so a
string tag suffices. -/
abbrev PromotionType := String

/-- A subscription row as seen on the user snapshot: platform tag and plan. -/
structure UserSubscription where
  platform : ApplicationPlatform
  plan : SubscriptionPlan
deriving DecidableEq, Repr

/-- A user snapshot as returned by the user repository. -/
structure User where
  id : String
  personalWalletPubKey : String
  personalWalletPrivKey : String
  userSubscriptions : List UserSubscription
deriving DecidableEq, Repr

/-- A parsed public key (opaque). -/
structure PubKey where
  address : String
deriving DecidableEq, Repr

/-- A signing keypair (opaque). -/
structure Keypair where
  secret : String
deriving DecidableEq, Repr

/-- The row returned by the subscription repository write; the source reads
`subscription.subscriptionCurrentPeriodEnd!` from it, modelled as an
optional already-formatted date string. -/
structure SubscriptionRow where
  subscriptionCurrentPeriodEnd : Option String
deriving DecidableEq, Repr

/-- The result of the promotion-purchase repository call; the source
destructures the `message` field. -/
structure BuyPromotionResult where
  message : String
deriving DecidableEq, Repr

/-- The outcome record of chargeSubscription. -/
structure SubscriptionOutcome where
  success : Bool
  message : PaymentsMessageEnum
  subscriptionEnd : Option String
deriving DecidableEq, Repr

/-- The outcome record of chargeDonation and chargePromotion. -/
structure SimpleOutcome where
  success : Bool
  message : PaymentsMessageEnum
deriving DecidableEq, Repr

/-- Observable effects of one workflow invocation: a balance-oracle query, a
transfer submission carrying the lamport amount handed to the transaction
service, and the entitlement mutations (subscription write — including the
opportunistic FREE write —, donation flag, accepted promotion record). -/
inductive Effect
  | balanceQuery
  | transferCall (lamports : Int)
  | subscriptionWrite (plan : SubscriptionPlan)
  | donationMark
  | promotionRecord
deriving DecidableEq, Repr

/-- The environment of external collaborators; each call either returns a
value or throws (Except.error). -/
structure Env where
  getUserById : String → Except String (Option User)
  parsePublicKey : String → Except String PubKey
  getAccountBalance : PubKey → Except String (Option Int)
  getKeypairFromPrivateKey : String → Except String Keypair
  createAndSendNativeV0Tx : Int → Keypair → Except String Bool
  updateUserSubscription : String → SubscriptionPlan → ApplicationPlatform → Option Nat → Except String SubscriptionRow
  hasDonated : String → Except String Unit
  buyPromotion : String → PromotionType → Except String BuyPromotionResult

/-- The fixed signature-fee reserve (`SIGNATURE_FEE = 5000` in the source). -/
def SIGNATURE_FEE : Int := 5000

/-- Lamports per SOL, the unit-conversion constant of the solana library
(10^9). -/
def LAMPORTS_PER_SOL : Int := 1000000000

/-- Modelled from the spec: HOBBY plan price in native units
(HOBBY_PLAN_FEE in the constants module, not under src/); the spec scenario
fixes it at 500,000 units. -/
def HOBBY_PLAN_FEE : Int := 500000

/-- Modelled from the spec: PRO plan price (PRO_PLAN_FEE in the constants
module, not under src/); the spec does not fix its value, a representative
positive value is used and no claim depends on it. -/
def PRO_PLAN_FEE : Int := 1000000

/-- Modelled from the spec: HOBBY validity period (MAX_HOBBY_PERIOD in the
constants module, not under src/); representative value, no claim depends
on it. -/
def MAX_HOBBY_PERIOD : Nat := 30

/-- Modelled from the spec: PRO validity period (MAX_PRO_PERIOD in the
constants module, not under src/); representative value, no claim depends
on it. -/
def MAX_PRO_PERIOD : Nat := 365

/-- Modelled from the spec: the plan rank table (SUBSCRIPTION_HIERARCHY in
the constants module, not under src/); the spec gives the total order
FREE < HOBBY < PRO with FREE lowest. -/
def SUBSCRIPTION_HIERARCHY : SubscriptionPlan → Nat
  | .FREE => 0
  | .HOBBY => 1
  | .PRO => 2

/-- JavaScript truthiness of an optional number: `!x` holds when the value
is absent (undefined/null) or zero. -/
def jsFalsy : Option Int → Bool
  | none => true
  | some v => decide (v = 0)

/-- Embeds `isInvalidUpgrade` (payments.service.ts lines 289-297): the
requested plan equals the current one, or the current plan (absent read as
FREE only on the rank side) ranks strictly above the requested one. -/
def isInvalidUpgrade (plan : BoostsSubscriptionPlan) (userPlan : Option SubscriptionPlan) : Bool :=
  userPlan == some plan ||
    decide (SUBSCRIPTION_HIERARCHY (userPlan.getD .FREE) > SUBSCRIPTION_HIERARCHY plan)

/-- Embeds `getPlanFee` (payments.service.ts lines 314-316): the record
lookup `\x7b HOBBY, PRO \x7d[plan]`, absent for any other plan. -/
def getPlanFee : BoostsSubscriptionPlan → Option Int
  | .HOBBY => some HOBBY_PLAN_FEE
  | .PRO => some PRO_PLAN_FEE
  | .FREE => none

/-- Embeds the period lookup inside `updateUserSubscription`
(payments.service.ts lines 323-325). -/
def subscriptionPeriod : BoostsSubscriptionPlan → Option Nat
  | .HOBBY => some MAX_HOBBY_PERIOD
  | .PRO => some MAX_PRO_PERIOD
  | .FREE => none

/-- Embeds the private `updateUserSubscription` method (payments.service.ts
lines 318-343): write the subscription row, then build the PLAN_UPGRADED
outcome from the formatted period end.  A thrown repository error
propagates to the caller (whose try/catch turns it into INTERNAL_ERROR);
the non-null assertion plus date formatting on an absent period end also
throws, modelled by the error case on `none`. -/
def updateUserSubscriptionStep (env : Env) (userId : String)
    (plan : BoostsSubscriptionPlan) (platform : ApplicationPlatform) :
    Except String (SubscriptionOutcome × List Effect) :=
  match env.updateUserSubscription userId plan platform (subscriptionPeriod plan) with
  | .error e => .error e
  | .ok row =>
    match row.subscriptionCurrentPeriodEnd with
    | none => .error "format of absent period end"
    | some d => .ok (⟨true, .PLAN_UPGRADED, some d⟩, [.subscriptionWrite plan])

/-- Embeds `chargeSubscription` (payments.service.ts lines 43-146).  Returns
the outcome (or the escaped exception) together with the effect trace. -/
def chargeSubscription (env : Env) (userId : String) (plan : BoostsSubscriptionPlan)
    (platform : ApplicationPlatform) :
    Except String SubscriptionOutcome × List Effect :=
  match env.getUserById userId with
  | .error e => (.error e, [])
  | .ok none => (.ok ⟨false, .NO_USER_FOUND, none⟩, [])
  | .ok (some user) =>
    let subscription := user.userSubscriptions.find? (fun sub => sub.platform == platform)
    if isInvalidUpgrade plan (subscription.map (fun s => s.plan)) then
      (.ok ⟨false, .USER_ALREADY_PAID, none⟩, [])
    else
      match env.parsePublicKey user.personalWalletPubKey with
      | .error e => (.error e, [])
      | .ok userPublicKey =>
        match env.getAccountBalance userPublicKey with
        | .error e => (.error e, [.balanceQuery])
        | .ok balanceOpt =>
          if jsFalsy balanceOpt then
            (.ok ⟨false, .INSUFFICIENT_BALANCE, none⟩, [.balanceQuery])
          else
            let balance := balanceOpt.getD 0
            let planFeeOpt := getPlanFee plan
            if jsFalsy planFeeOpt then
              (.ok ⟨false, .INVALID_PLAN, none⟩, [.balanceQuery])
            else
              let planFee := planFeeOpt.getD 0
              if balance ≥ planFee then
                -- try block: transfer construction, signing, submission,
                -- then the entitlement write
                match env.getKeypairFromPrivateKey user.personalWalletPrivKey with
                | .error _ => (.ok ⟨false, .INTERNAL_ERROR, none⟩, [.balanceQuery])
                | .ok userKeypair =>
                  match env.createAndSendNativeV0Tx (planFee - SIGNATURE_FEE) userKeypair with
                  | .error _ =>
                    (.ok ⟨false, .INTERNAL_ERROR, none⟩,
                      [.balanceQuery, .transferCall (planFee - SIGNATURE_FEE)])
                  | .ok confirmed =>
                    if !confirmed then
                      (.ok ⟨false, .INTERNAL_ERROR, none⟩,
                        [.balanceQuery, .transferCall (planFee - SIGNATURE_FEE)])
                    else
                      match updateUserSubscriptionStep env user.id plan platform with
                      | .error _ =>
                        (.ok ⟨false, .INTERNAL_ERROR, none⟩,
                          [.balanceQuery, .transferCall (planFee - SIGNATURE_FEE)])
                      | .ok (outcome, eff) =>
                        (.ok outcome,
                          [.balanceQuery, .transferCall (planFee - SIGNATURE_FEE)] ++ eff)
              else
                -- create a free subscription if they have no balance and no
                -- subscription; this repository call is NOT inside a
                -- try/catch in the source, so its failure escapes
                if (subscription.map (fun s => s.plan)).isNone then
                  match env.updateUserSubscription user.id .FREE platform none with
                  | .error e => (.error e, [.balanceQuery])
                  | .ok _ =>
                    (.ok ⟨false, .INSUFFICIENT_BALANCE, none⟩,
                      [.balanceQuery, .subscriptionWrite .FREE])
                else
                  (.ok ⟨false, .INSUFFICIENT_BALANCE, none⟩, [.balanceQuery])

/-- Embeds `chargeDonation` (payments.service.ts lines 148-209). -/
def chargeDonation (env : Env) (userId : String) (donation : Int) :
    Except String SimpleOutcome × List Effect :=
  match env.getUserById userId with
  | .error e => (.error e, [])
  | .ok none => (.ok ⟨false, .NO_USER_FOUND⟩, [])
  | .ok (some user) =>
    match env.parsePublicKey user.personalWalletPubKey with
    | .error e => (.error e, [])
    | .ok userPublicKey =>
      match env.getAccountBalance userPublicKey with
      | .error e => (.error e, [.balanceQuery])
      | .ok balanceOpt =>
        if jsFalsy balanceOpt then
          (.ok ⟨false, .INSUFFICIENT_BALANCE⟩, [.balanceQuery])
        else
          let balance := balanceOpt.getD 0
          let donationLamports := donation * LAMPORTS_PER_SOL
          if balance ≥ donationLamports then
            match env.getKeypairFromPrivateKey user.personalWalletPrivKey with
            | .error _ => (.ok ⟨false, .INTERNAL_ERROR⟩, [.balanceQuery])
            | .ok userKeypair =>
              match env.createAndSendNativeV0Tx (donationLamports - SIGNATURE_FEE) userKeypair with
              | .error _ =>
                (.ok ⟨false, .INTERNAL_ERROR⟩,
                  [.balanceQuery, .transferCall (donationLamports - SIGNATURE_FEE)])
              | .ok confirmed =>
                if !confirmed then
                  (.ok ⟨false, .INTERNAL_ERROR⟩,
                    [.balanceQuery, .transferCall (donationLamports - SIGNATURE_FEE)])
                else
                  match env.hasDonated userId with
                  | .error _ =>
                    (.ok ⟨false, .INTERNAL_ERROR⟩,
                      [.balanceQuery, .transferCall (donationLamports - SIGNATURE_FEE)])
                  | .ok _ =>
                    (.ok ⟨true, .DONATION_MADE⟩,
                      [.balanceQuery, .transferCall (donationLamports - SIGNATURE_FEE),
                        .donationMark])
          else
            (.ok ⟨false, .INSUFFICIENT_BALANCE⟩, [.balanceQuery])

/-- The refusal message the promotion repository returns for a repeated
non-stackable purchase (compared literally in the source, line 267). -/
def NON_STACKABLE_MESSAGE : String := "Non-stackable promotion already purchased"

/-- Embeds `chargePromotion` (payments.service.ts lines 211-287).  Note the
source checks the balance against `promotionAmt * LAMPORTS_PER_SOL` but
hands `promotionAmt - SIGNATURE_FEE` (the unconverted amount) to the
transaction service (line 241). -/
def chargePromotion (env : Env) (userId : String) (promotionAmt : Int)
    (promotionType : PromotionType) :
    Except String SimpleOutcome × List Effect :=
  match env.getUserById userId with
  | .error e => (.error e, [])
  | .ok none => (.ok ⟨false, .NO_USER_FOUND⟩, [])
  | .ok (some user) =>
    match env.parsePublicKey user.personalWalletPubKey with
    | .error e => (.error e, [])
    | .ok userPublicKey =>
      match env.getAccountBalance userPublicKey with
      | .error e => (.error e, [.balanceQuery])
      | .ok balanceOpt =>
        if jsFalsy balanceOpt then
          (.ok ⟨false, .INSUFFICIENT_BALANCE⟩, [.balanceQuery])
        else
          let balance := balanceOpt.getD 0
          let promotionAmtLamports := promotionAmt * LAMPORTS_PER_SOL
          if balance ≥ promotionAmtLamports then
            match env.getKeypairFromPrivateKey user.personalWalletPrivKey with
            | .error _ => (.ok ⟨false, .INTERNAL_ERROR⟩, [.balanceQuery])
            | .ok userKeypair =>
              match env.createAndSendNativeV0Tx (promotionAmt - SIGNATURE_FEE) userKeypair with
              | .error _ =>
                (.ok ⟨false, .INTERNAL_ERROR⟩,
                  [.balanceQuery, .transferCall (promotionAmt - SIGNATURE_FEE)])
              | .ok confirmed =>
                if !confirmed then
                  (.ok ⟨false, .INTERNAL_ERROR⟩,
                    [.balanceQuery, .transferCall (promotionAmt - SIGNATURE_FEE)])
                else
                  match env.buyPromotion userId promotionType with
                  | .error _ =>
                    (.ok ⟨false, .INTERNAL_ERROR⟩,
                      [.balanceQuery, .transferCall (promotionAmt - SIGNATURE_FEE)])
                  | .ok res =>
                    if res.message == NON_STACKABLE_MESSAGE then
                      (.ok ⟨false, .USER_ALREADY_PAID⟩,
                        [.balanceQuery, .transferCall (promotionAmt - SIGNATURE_FEE)])
                    else
                      (.ok ⟨true, .TRANSACTION_SUCCESS⟩,
                        [.balanceQuery, .transferCall (promotionAmt - SIGNATURE_FEE),
                          .promotionRecord])
          else
            (.ok ⟨false, .INSUFFICIENT_BALANCE⟩, [.balanceQuery])

/-- An effect is a transfer submission. -/
def isTransferCall : Effect → Bool
  | .transferCall _ => true
  | _ => false

/-- Number of transfer submissions in a trace. -/
def countTransferCalls (tr : List Effect) : Nat :=
  (tr.filter isTransferCall).length

/-- An effect is an entitlement mutation (subscription write, donation flag,
accepted promotion record). -/
def isEntitlementMutation : Effect → Bool
  | .subscriptionWrite _ => true
  | .donationMark => true
  | .promotionRecord => true
  | _ => false

/-- A trace contains no entitlement mutation. -/
def noMutation (tr : List Effect) : Bool :=
  tr.all (fun e => !isEntitlementMutation e)

/-- A reason code is one of the three success codes. -/
def isSuccessMessage (m : PaymentsMessageEnum) : Bool :=
  m == .PLAN_UPGRADED || m == .DONATION_MADE || m == .TRANSACTION_SUCCESS

/-- A user with no subscriptions. -/
def userNoSub : User := ⟨"u1", "pub1", "priv1", []⟩

/-- A user holding a HOBBY subscription on BOOSTS. -/
def userHobby : User := ⟨"u2", "pub2", "priv2", [⟨.BOOSTS, .HOBBY⟩]⟩

/-- A fully cooperative environment: the user exists with no subscription,
the balance oracle reports 2,000,000,000 lamports, every external call
succeeds and the transfer confirms. -/
def baseEnv : Env where
  getUserById := fun _ => Except.ok (some userNoSub)
  parsePublicKey := fun s => Except.ok ⟨s⟩
  getAccountBalance := fun _ => Except.ok (some 2000000000)
  getKeypairFromPrivateKey := fun s => Except.ok ⟨s⟩
  createAndSendNativeV0Tx := fun _ _ => Except.ok true
  updateUserSubscription := fun _ _ _ _ => Except.ok ⟨some "12/31/2030"⟩
  hasDonated := fun _ => Except.ok ()
  buyPromotion := fun _ _ => Except.ok ⟨"Promotion purchased"⟩

/-- A user whose BOOSTS subscription row is on the FREE plan. -/
def userFree : User := ⟨"u3", "pub3", "priv3", [⟨.BOOSTS, .FREE⟩]⟩

/-- baseEnv, but the user already holds a HOBBY subscription on BOOSTS. -/
def envUserHobby : Env := { baseEnv with getUserById := fun _ => Except.ok (some userHobby) }

/-- baseEnv, but the promotion repository refuses with the non-stackable
message. -/
def envNonStack : Env :=
  { baseEnv with buyPromotion := fun _ _ => Except.ok ⟨NON_STACKABLE_MESSAGE⟩ }

/-- baseEnv, but the transaction service reports the transfer unconfirmed. -/
def envUnconfirmed : Env :=
  { baseEnv with createAndSendNativeV0Tx := fun _ _ => Except.ok false }

/-- baseEnv, but the balance oracle returns no balance (null). -/
def envNoBalance : Env := { baseEnv with getAccountBalance := fun _ => Except.ok none }

/-- baseEnv, but the user repository throws. -/
def envDbDown : Env := { baseEnv with getUserById := fun _ => Except.error "db down" }

/-- baseEnv, but public-key parsing throws. -/
def envBadKey : Env := { baseEnv with parsePublicKey := fun _ => Except.error "bad key" }

/-- baseEnv, but the balance oracle throws. -/
def envRpcDown : Env := { baseEnv with getAccountBalance := fun _ => Except.error "rpc down" }

/-- baseEnv with a balance of 100 lamports (below every plan fee). -/
def envLowBalance : Env := { baseEnv with getAccountBalance := fun _ => Except.ok (some 100) }

/-- envLowBalance, but the subscription write throws. -/
def envWriteFail : Env :=
  { envLowBalance with updateUserSubscription := fun _ _ _ _ => Except.error "write failed" }

/-- envLowBalance for a user who already has a FREE subscription row. -/
def envLowBalanceFree : Env :=
  { envLowBalance with getUserById := fun _ => Except.ok (some userFree) }

/-- baseEnv with the spec-scenario balance of 1,000,000 lamports. -/
def envBalance1M : Env := { baseEnv with getAccountBalance := fun _ => Except.ok (some 1000000) }

/-- baseEnv with balance exactly 1 SOL in lamports. -/
def envExactBalance : Env :=
  { baseEnv with getAccountBalance := fun _ => Except.ok (some (1 * LAMPORTS_PER_SOL)) }

/-- baseEnv with balance one lamport below 1 SOL. -/
def envShortBalance : Env :=
  { baseEnv with getAccountBalance := fun _ => Except.ok (some (1 * LAMPORTS_PER_SOL - 1)) }

/-- C1: evaluation at the failing input.  For a promotion of amount 1 by a
user with ample balance and a cooperative transfer service, chargePromotion
submits a transfer of `promotionAmt - SIGNATURE_FEE = -4999` lamports and
never submits the converted `1 * LAMPORTS_PER_SOL - SIGNATURE_FEE =
999995000` lamports, while chargeDonation at the same amount submits
exactly that converted amount: the promotion workflow does not perform the
same transfer step as the donation workflow. -/
theorem chargePromotion_unconverted_transfer_bug :
    (chargePromotion baseEnv "u1" 1 "X").2 =
      [.balanceQuery, .transferCall (1 - SIGNATURE_FEE), .promotionRecord] ∧
    Effect.transferCall (1 * LAMPORTS_PER_SOL - SIGNATURE_FEE) ∉
      (chargePromotion baseEnv "u1" 1 "X").2 ∧
    (chargeDonation baseEnv "u1" 1).2 =
      [.balanceQuery, .transferCall (1 * LAMPORTS_PER_SOL - SIGNATURE_FEE), .donationMark] := by
  refine ⟨rfl, ?_, rfl⟩
  decide

/-- C4: counterexample.  The user exists and has no subscription row (the
current plan therefore counts as FREE) and the requested plan FREE satisfies
rank(requested) <= rank(current); yet chargeSubscription does not return
USER_ALREADY_PAID — it queries the balance oracle and returns INVALID_PLAN. -/
theorem chargeSubscription_free_request_not_rejected :
    baseEnv.getUserById "u1" = .ok (some userNoSub) ∧
    (userNoSub.userSubscriptions.find? fun sub => sub.platform == ApplicationPlatform.BOOSTS)
      = none ∧
    SUBSCRIPTION_HIERARCHY .FREE ≤ SUBSCRIPTION_HIERARCHY .FREE ∧
    (chargeSubscription baseEnv "u1" .FREE .BOOSTS).1 = .ok ⟨false, .INVALID_PLAN, none⟩ ∧
    (chargeSubscription baseEnv "u1" .FREE .BOOSTS).2 = [.balanceQuery] := by
  exact ⟨rfl, rfl, le_refl _, rfl, rfl⟩

/-- C5: counterexample.  The request (FREE, no existing row) passes the
validity check and priceOf(FREE) is absent, but when the balance query
returns no usable balance the outcome is INSUFFICIENT_BALANCE, not
INVALID_PLAN: the balance query precedes the price lookup. -/
theorem chargeSubscription_invalid_plan_after_balance :
    isInvalidUpgrade .FREE none = false ∧
    getPlanFee .FREE = none ∧
    envNoBalance.getAccountBalance ⟨"pub1"⟩ = .ok none ∧
    (chargeSubscription envNoBalance "u1" .FREE .BOOSTS).1 =
      .ok ⟨false, .INSUFFICIENT_BALANCE, none⟩ := by
  exact ⟨rfl, rfl, rfl, rfl⟩

/-- C6: counterexample.  A thrown user-repository failure is not caught by
any of the three entry points: each call ends in the escaped exception
rather than a reason code from the taxonomy. -/
theorem external_failure_escapes_entry_points :
    (chargeSubscription envDbDown "u1" .HOBBY .BOOSTS).1 = .error "db down" ∧
    (chargeDonation envDbDown "u1" 1).1 = .error "db down" ∧
    (chargePromotion envDbDown "u1" 1 "X").1 = .error "db down" := by
  exact ⟨rfl, rfl, rfl⟩

/-- C9: counterexample.  With balance 100 < HOBBY price and no subscription
row, the opportunistic FREE-subscription write is attempted, but it is not
best-effort: when that write throws, the exception escapes and the outcome
is not INSUFFICIENT_BALANCE. -/
theorem free_write_failure_changes_outcome :
    envWriteFail.getUserById "u1" = .ok (some userNoSub) ∧
    (userNoSub.userSubscriptions.find? fun sub => sub.platform == ApplicationPlatform.BOOSTS)
      = none ∧
    envWriteFail.getAccountBalance ⟨"pub1"⟩ = .ok (some 100) ∧
    (100 : Int) < HOBBY_PLAN_FEE ∧
    (chargeSubscription envWriteFail "u1" .HOBBY .BOOSTS).1 = .error "write failed" := by
  exact ⟨rfl, rfl, rfl, by decide, rfl⟩

/-- C2: if the promotion repository reports the non-stackable type as
already purchased and the user exists with sufficient balance, the
promotion workflow submits exactly one transfer and still returns
USER_ALREADY_PAID with success = false. -/
theorem chargePromotion_nonstackable_single_transfer
    (env : Env) (userId : String) (amt : Int) (ptype : PromotionType)
    (user : User) (pk : PubKey) (kp : Keypair) (b : Int)
    (hu : env.getUserById userId = .ok (some user))
    (hp : env.parsePublicKey user.personalWalletPubKey = .ok pk)
    (hb : env.getAccountBalance pk = .ok (some b))
    (hb0 : b ≠ 0)
    (hge : b ≥ amt * LAMPORTS_PER_SOL)
    (hk : env.getKeypairFromPrivateKey user.personalWalletPrivKey = .ok kp)
    (hs : env.createAndSendNativeV0Tx (amt - SIGNATURE_FEE) kp = .ok true)
    (hbuy : env.buyPromotion userId ptype = .ok ⟨NON_STACKABLE_MESSAGE⟩) :
    (chargePromotion env userId amt ptype).1 = .ok ⟨false, .USER_ALREADY_PAID⟩ ∧
    countTransferCalls (chargePromotion env userId amt ptype).2 = 1 := by
  simp [chargePromotion, hu, hp, hb, hb0, hge, hk, hs, hbuy, jsFalsy,
    countTransferCalls, isTransferCall]

/-- C2 witness: the theorem at a concrete environment. -/
theorem chargePromotion_nonstackable_single_transfer_witness :
    (chargePromotion envNonStack "u1" 2 "PROMO").1 = .ok ⟨false, .USER_ALREADY_PAID⟩ ∧
    countTransferCalls (chargePromotion envNonStack "u1" 2 "PROMO").2 = 1 :=
  chargePromotion_nonstackable_single_transfer envNonStack "u1" 2 "PROMO" userNoSub ⟨"pub1"⟩
    ⟨"priv1"⟩ 2000000000 rfl rfl rfl (by decide) (by decide) rfl rfl rfl

/-- When the requested plan ranks at or below an existing plan, the
source validity check rejects: equal ranks force equal plans (the rank
table is injective) and a strictly higher current rank triggers the
hierarchy comparison. -/
theorem isInvalidUpgrade_of_rank_le (p q : SubscriptionPlan)
    (h : SUBSCRIPTION_HIERARCHY p ≤ SUBSCRIPTION_HIERARCHY q) :
    isInvalidUpgrade p (some q) = true := by
  cases p <;> cases q <;> revert h <;> decide

/-- C4 (amended): for every existing user whose subscription record for the
platform is present, rank(requestedPlan) <= rank(currentPlan) makes
upgrade-subscription return USER_ALREADY_PAID with an empty effect trace:
no balance-oracle query and no transfer.  (When the record is absent the
source compares the requested plan against undefined, so a FREE request
slips past this rejection.) -/
theorem chargeSubscription_rejects_at_or_below_current
    (env : Env) (userId : String) (plan : BoostsSubscriptionPlan)
    (platform : ApplicationPlatform) (user : User) (sub : UserSubscription)
    (hu : env.getUserById userId = .ok (some user))
    (hfind : user.userSubscriptions.find? (fun s => s.platform == platform) = some sub)
    (hrank : SUBSCRIPTION_HIERARCHY plan ≤ SUBSCRIPTION_HIERARCHY sub.plan) :
    (chargeSubscription env userId plan platform).1 = .ok ⟨false, .USER_ALREADY_PAID, none⟩ ∧
    (chargeSubscription env userId plan platform).2 = [] := by
  have hinv := isInvalidUpgrade_of_rank_le plan sub.plan hrank
  simp [chargeSubscription, hu, hfind, hinv]

/-- C4 witness: the amended theorem at a user already on HOBBY requesting
HOBBY again. -/
theorem chargeSubscription_rejects_at_or_below_current_witness :
    (chargeSubscription envUserHobby "u2" .HOBBY .BOOSTS).1 =
      .ok ⟨false, .USER_ALREADY_PAID, none⟩ ∧
    (chargeSubscription envUserHobby "u2" .HOBBY .BOOSTS).2 = [] :=
  chargeSubscription_rejects_at_or_below_current envUserHobby "u2" .HOBBY .BOOSTS userHobby
    ⟨.BOOSTS, .HOBBY⟩ rfl rfl (by decide)

/-- C5 (amended): for an existing user whose request passes the validity
check and whose requested plan has no price entry, the outcome depends on
the balance query, which the source performs first: a usable (nonzero)
balance yields INVALID_PLAN, while an absent balance yields
INSUFFICIENT_BALANCE — the price lookup does not precede the balance
query. -/
theorem chargeSubscription_price_lookup_after_balance
    (envA envB : Env) (userId : String) (plan : BoostsSubscriptionPlan)
    (platform : ApplicationPlatform) (user : User) (pk : PubKey) (b : Int)
    (hv : isInvalidUpgrade plan
      ((user.userSubscriptions.find? fun s => s.platform == platform).map fun s => s.plan)
      = false)
    (hfee : getPlanFee plan = none)
    (huA : envA.getUserById userId = .ok (some user))
    (hpA : envA.parsePublicKey user.personalWalletPubKey = .ok pk)
    (hbA : envA.getAccountBalance pk = .ok (some b))
    (hb0 : b ≠ 0)
    (huB : envB.getUserById userId = .ok (some user))
    (hpB : envB.parsePublicKey user.personalWalletPubKey = .ok pk)
    (hbB : envB.getAccountBalance pk = .ok none) :
    (chargeSubscription envA userId plan platform).1 = .ok ⟨false, .INVALID_PLAN, none⟩ ∧
    (chargeSubscription envB userId plan platform).1 =
      .ok ⟨false, .INSUFFICIENT_BALANCE, none⟩ := by
  constructor
  · simp [chargeSubscription, huA, hpA, hbA, hb0, hv, hfee, jsFalsy]
  · simp [chargeSubscription, huB, hpB, hbB, hv, jsFalsy]

/-- C5 witness: the amended theorem at concrete environments, requesting the
priceless FREE plan. -/
theorem chargeSubscription_price_lookup_after_balance_witness :
    (chargeSubscription baseEnv "u1" .FREE .BOOSTS).1 = .ok ⟨false, .INVALID_PLAN, none⟩ ∧
    (chargeSubscription envNoBalance "u1" .FREE .BOOSTS).1 =
      .ok ⟨false, .INSUFFICIENT_BALANCE, none⟩ :=
  chargeSubscription_price_lookup_after_balance baseEnv envNoBalance "u1" .FREE .BOOSTS
    userNoSub ⟨"pub1"⟩ 2000000000 rfl rfl rfl rfl rfl (by decide) rfl rfl rfl

/-- C3: for each of the three entry points, once the call reaches the
transfer stage (existing user, usable sufficient balance, valid plan for
the upgrade path), a failure of that stage — keypair derivation throwing,
submission throwing, or the transfer not confirming — produces the
INTERNAL_ERROR outcome and a trace free of entitlement mutations (no
subscription write, no donation flag, no promotion record). -/
theorem transfer_failure_internal_error_no_mutation
    (env : Env) (userId : String) (platform : ApplicationPlatform)
    (damt pamt : Int) (ptype : PromotionType) (user : User) (pk : PubKey) (b : Int)
    (hu : env.getUserById userId = .ok (some user))
    (hp : env.parsePublicKey user.personalWalletPubKey = .ok pk)
    (hb : env.getAccountBalance pk = .ok (some b))
    (hb0 : b ≠ 0)
    (hv : isInvalidUpgrade .HOBBY
      ((user.userSubscriptions.find? fun s => s.platform == platform).map fun s => s.plan)
      = false)
    (hgeS : b ≥ HOBBY_PLAN_FEE)
    (hgeD : b ≥ damt * LAMPORTS_PER_SOL)
    (hgeP : b ≥ pamt * LAMPORTS_PER_SOL)
    (htry : (∃ e, env.getKeypairFromPrivateKey user.personalWalletPrivKey = .error e) ∨
      (∃ kp, env.getKeypairFromPrivateKey user.personalWalletPrivKey = .ok kp ∧
        ∀ amt, env.createAndSendNativeV0Tx amt kp = .ok false ∨
          ∃ e, env.createAndSendNativeV0Tx amt kp = .error e)) :
    ((chargeSubscription env userId .HOBBY platform).1 = .ok ⟨false, .INTERNAL_ERROR, none⟩ ∧
      noMutation (chargeSubscription env userId .HOBBY platform).2 = true) ∧
    ((chargeDonation env userId damt).1 = .ok ⟨false, .INTERNAL_ERROR⟩ ∧
      noMutation (chargeDonation env userId damt).2 = true) ∧
    ((chargePromotion env userId pamt ptype).1 = .ok ⟨false, .INTERNAL_ERROR⟩ ∧
      noMutation (chargePromotion env userId pamt ptype).2 = true) := by
  have hfee0 : jsFalsy (getPlanFee SubscriptionPlan.HOBBY) = false := rfl
  have hfeeD : (getPlanFee SubscriptionPlan.HOBBY).getD 0 = HOBBY_PLAN_FEE := rfl
  have hfalsy : ∀ v : Int, jsFalsy (some v) = decide (v = 0) := fun _ => rfl
  rcases htry with ⟨e, hk⟩ | ⟨kp, hk, hsend⟩
  · refine ⟨⟨?_, ?_⟩, ⟨?_, ?_⟩, ⟨?_, ?_⟩⟩ <;>
      simp [chargeSubscription, chargeDonation, chargePromotion, hu, hp, hb, hb0, hv,
        hfee0, hfeeD, hfalsy, hgeS, hgeD, hgeP, hk, noMutation, isEntitlementMutation]
  · rcases hsend (HOBBY_PLAN_FEE - SIGNATURE_FEE) with hfS | ⟨eS, hfS⟩ <;>
      rcases hsend (damt * LAMPORTS_PER_SOL - SIGNATURE_FEE) with hfD | ⟨eD, hfD⟩ <;>
        rcases hsend (pamt - SIGNATURE_FEE) with hfP | ⟨eP, hfP⟩ <;>
          refine ⟨⟨?_, ?_⟩, ⟨?_, ?_⟩, ⟨?_, ?_⟩⟩ <;>
            simp [chargeSubscription, chargeDonation, chargePromotion, hu, hp, hb, hb0, hv,
              hfee0, hfeeD, hfalsy, hgeS, hgeD, hgeP, hk, hfS, hfD, hfP, noMutation,
              isEntitlementMutation]

/-- C3 witness: the theorem at a concrete environment whose transaction
service reports every transfer unconfirmed. -/
theorem transfer_failure_internal_error_no_mutation_witness :
    ((chargeSubscription envUnconfirmed "u1" .HOBBY .BOOSTS).1 =
        .ok ⟨false, .INTERNAL_ERROR, none⟩ ∧
      noMutation (chargeSubscription envUnconfirmed "u1" .HOBBY .BOOSTS).2 = true) ∧
    ((chargeDonation envUnconfirmed "u1" 1).1 = .ok ⟨false, .INTERNAL_ERROR⟩ ∧
      noMutation (chargeDonation envUnconfirmed "u1" 1).2 = true) ∧
    ((chargePromotion envUnconfirmed "u1" 1 "X").1 = .ok ⟨false, .INTERNAL_ERROR⟩ ∧
      noMutation (chargePromotion envUnconfirmed "u1" 1 "X").2 = true) :=
  transfer_failure_internal_error_no_mutation envUnconfirmed "u1" .BOOSTS 1 1 "X" userNoSub
    ⟨"pub1"⟩ 2000000000 rfl rfl rfl (by decide) rfl (by decide) (by decide) (by decide)
    (Or.inr ⟨⟨"priv1"⟩, rfl, fun _ => Or.inl rfl⟩)

/-- jsFalsy on a present value tests for zero. -/
theorem jsFalsy_some (v : Int) : jsFalsy (some v) = decide (v = 0) := rfl

/-- C6 (amended): the propagation policy holds only inside the transfer
try block; the other external calls are unguarded.  A thrown user lookup
escapes all three entry points, and a thrown public-key parse, a thrown
balance query, and a thrown best-effort FREE-subscription write each escape
the entry point that performs them, instead of being mapped to a taxonomy
reason code. -/
theorem uncaught_failure_points_propagate
    (envA envB envC envD : Env) (userId : String) (plan : BoostsSubscriptionPlan)
    (platform : ApplicationPlatform) (damt pamt : Int) (ptype : PromotionType)
    (user userD : User) (pk pkD : PubKey) (bD : Int) (eA eB eC eD : String)
    (hA : envA.getUserById userId = .error eA)
    (hBu : envB.getUserById userId = .ok (some user))
    (hBp : envB.parsePublicKey user.personalWalletPubKey = .error eB)
    (hCu : envC.getUserById userId = .ok (some user))
    (hCp : envC.parsePublicKey user.personalWalletPubKey = .ok pk)
    (hCb : envC.getAccountBalance pk = .error eC)
    (hDu : envD.getUserById userId = .ok (some userD))
    (hDfind : userD.userSubscriptions.find? (fun s => s.platform == platform) = none)
    (hDp : envD.parsePublicKey userD.personalWalletPubKey = .ok pkD)
    (hDb : envD.getAccountBalance pkD = .ok (some bD))
    (hD0 : bD ≠ 0)
    (hDlt : bD < HOBBY_PLAN_FEE)
    (hDw : envD.updateUserSubscription userD.id .FREE platform none = .error eD) :
    (chargeSubscription envA userId plan platform).1 = .error eA ∧
    (chargeDonation envA userId damt).1 = .error eA ∧
    (chargePromotion envA userId pamt ptype).1 = .error eA ∧
    (chargeDonation envB userId damt).1 = .error eB ∧
    (chargeDonation envC userId damt).1 = .error eC ∧
    (chargeSubscription envD userId .HOBBY platform).1 = .error eD := by
  have hnge : ¬ (bD ≥ HOBBY_PLAN_FEE) := not_le.mpr hDlt
  have hfee0 : jsFalsy (getPlanFee SubscriptionPlan.HOBBY) = false := rfl
  have hfeeD : (getPlanFee SubscriptionPlan.HOBBY).getD 0 = HOBBY_PLAN_FEE := rfl
  refine ⟨?_, ?_, ?_, ?_, ?_, ?_⟩
  · simp [chargeSubscription, hA]
  · simp [chargeDonation, hA]
  · simp [chargePromotion, hA]
  · simp [chargeDonation, hBu, hBp]
  · simp [chargeDonation, hCu, hCp, hCb]
  · simp [chargeSubscription, hDu, hDfind, hDp, hDb, hD0, hnge, hfee0, hfeeD, hDw,
      jsFalsy_some, isInvalidUpgrade, SUBSCRIPTION_HIERARCHY]

/-- C6 (amended) witness: the theorem at four concrete environments, one per
uncaught failure point. -/
theorem uncaught_failure_points_propagate_witness :
    (chargeSubscription envDbDown "u9" .HOBBY .BOOSTS).1 = .error "db down" ∧
    (chargeDonation envDbDown "u9" 1).1 = .error "db down" ∧
    (chargePromotion envDbDown "u9" 1 "Y").1 = .error "db down" ∧
    (chargeDonation envBadKey "u9" 1).1 = .error "bad key" ∧
    (chargeDonation envRpcDown "u9" 1).1 = .error "rpc down" ∧
    (chargeSubscription envWriteFail "u9" .HOBBY .BOOSTS).1 = .error "write failed" :=
  uncaught_failure_points_propagate envDbDown envBadKey envRpcDown envWriteFail "u9" .HOBBY
    .BOOSTS 1 1 "Y" userNoSub userNoSub ⟨"pub1"⟩ ⟨"pub1"⟩ 100 "db down" "bad key" "rpc down"
    "write failed" rfl rfl rfl rfl rfl rfl rfl rfl rfl rfl (by decide) (by decide) rfl

/-- C7: in the upgrade path with sufficient balance, the amount handed to
the transaction service is the plan fee minus the signature-fee reserve;
for the HOBBY fee of 500,000 that is 495,000 lamports, and on confirmation
and successful write the outcome is PLAN_UPGRADED. -/
theorem chargeSubscription_hobby_transfer_amount
    (env : Env) (userId : String) (platform : ApplicationPlatform)
    (user : User) (pk : PubKey) (kp : Keypair) (b : Int) (d : String)
    (hu : env.getUserById userId = .ok (some user))
    (hv : isInvalidUpgrade .HOBBY
      ((user.userSubscriptions.find? fun s => s.platform == platform).map fun s => s.plan)
      = false)
    (hp : env.parsePublicKey user.personalWalletPubKey = .ok pk)
    (hb : env.getAccountBalance pk = .ok (some b))
    (hb0 : b ≠ 0)
    (hge : b ≥ HOBBY_PLAN_FEE)
    (hk : env.getKeypairFromPrivateKey user.personalWalletPrivKey = .ok kp)
    (hs : env.createAndSendNativeV0Tx (HOBBY_PLAN_FEE - SIGNATURE_FEE) kp = .ok true)
    (hw : env.updateUserSubscription user.id .HOBBY platform (subscriptionPeriod .HOBBY)
      = .ok ⟨some d⟩) :
    HOBBY_PLAN_FEE - SIGNATURE_FEE = 495000 ∧
    (chargeSubscription env userId .HOBBY platform).1 = .ok ⟨true, .PLAN_UPGRADED, some d⟩ ∧
    (chargeSubscription env userId .HOBBY platform).2 =
      [.balanceQuery, .transferCall (HOBBY_PLAN_FEE - SIGNATURE_FEE),
        .subscriptionWrite .HOBBY] := by
  have hfee0 : jsFalsy (getPlanFee SubscriptionPlan.HOBBY) = false := rfl
  have hfeeD : (getPlanFee SubscriptionPlan.HOBBY).getD 0 = HOBBY_PLAN_FEE := rfl
  refine ⟨by decide, ?_, ?_⟩ <;>
    simp [chargeSubscription, updateUserSubscriptionStep, hu, hv, hp, hb, hb0, hge, hk, hs,
      hw, hfee0, hfeeD, jsFalsy_some]

/-- C7 witness: the spec scenario with balance 1,000,000 lamports. -/
theorem chargeSubscription_hobby_transfer_amount_witness :
    HOBBY_PLAN_FEE - SIGNATURE_FEE = 495000 ∧
    (chargeSubscription envBalance1M "u1" .HOBBY .BOOSTS).1 =
      .ok ⟨true, .PLAN_UPGRADED, some "12/31/2030"⟩ ∧
    (chargeSubscription envBalance1M "u1" .HOBBY .BOOSTS).2 =
      [.balanceQuery, .transferCall (HOBBY_PLAN_FEE - SIGNATURE_FEE),
        .subscriptionWrite .HOBBY] :=
  chargeSubscription_hobby_transfer_amount envBalance1M "u1" .BOOSTS userNoSub ⟨"pub1"⟩
    ⟨"priv1"⟩ 1000000 "12/31/2030" rfl rfl rfl rfl (by decide) (by decide) rfl rfl rfl

/-- C8: a donation whose balance equals the converted amount exactly goes
through and yields DONATION_MADE; with one lamport less the outcome is
INSUFFICIENT_BALANCE and no transfer is submitted. -/
theorem chargeDonation_balance_boundary
    (envA envB : Env) (userId : String) (amt : Int) (user : User) (pk : PubKey) (kp : Keypair)
    (huA : envA.getUserById userId = .ok (some user))
    (hpA : envA.parsePublicKey user.personalWalletPubKey = .ok pk)
    (hbA : envA.getAccountBalance pk = .ok (some (amt * LAMPORTS_PER_SOL)))
    (h0 : amt * LAMPORTS_PER_SOL ≠ 0)
    (hkA : envA.getKeypairFromPrivateKey user.personalWalletPrivKey = .ok kp)
    (hsA : envA.createAndSendNativeV0Tx (amt * LAMPORTS_PER_SOL - SIGNATURE_FEE) kp = .ok true)
    (hdA : envA.hasDonated userId = .ok ())
    (huB : envB.getUserById userId = .ok (some user))
    (hpB : envB.parsePublicKey user.personalWalletPubKey = .ok pk)
    (hbB : envB.getAccountBalance pk = .ok (some (amt * LAMPORTS_PER_SOL - 1)))
    (h1 : amt * LAMPORTS_PER_SOL - 1 ≠ 0) :
    (chargeDonation envA userId amt).1 = .ok ⟨true, .DONATION_MADE⟩ ∧
    (chargeDonation envB userId amt).1 = .ok ⟨false, .INSUFFICIENT_BALANCE⟩ ∧
    countTransferCalls (chargeDonation envB userId amt).2 = 0 := by
  have hnge : ¬ (amt * LAMPORTS_PER_SOL - 1 ≥ amt * LAMPORTS_PER_SOL) := by omega
  refine ⟨?_, ?_, ?_⟩ <;>
    simp [chargeDonation, huA, hpA, hbA, h0, hkA, hsA, hdA, huB, hpB, hbB, h1, hnge,
      jsFalsy_some, countTransferCalls, isTransferCall]

/-- C8 witness: a 1-SOL donation with balance exactly 10^9 and with
10^9 - 1 lamports. -/
theorem chargeDonation_balance_boundary_witness :
    (chargeDonation envExactBalance "u1" 1).1 = .ok ⟨true, .DONATION_MADE⟩ ∧
    (chargeDonation envShortBalance "u1" 1).1 = .ok ⟨false, .INSUFFICIENT_BALANCE⟩ ∧
    countTransferCalls (chargeDonation envShortBalance "u1" 1).2 = 0 :=
  chargeDonation_balance_boundary envExactBalance envShortBalance "u1" 1 userNoSub ⟨"pub1"⟩
    ⟨"priv1"⟩ rfl rfl rfl (by decide) rfl rfl rfl rfl rfl rfl (by decide)

/-- C9 (amended): in the upgrade path with a usable balance below the plan
price, a user with no subscription row for the platform gets an
opportunistic FREE-tier subscription write and, when that write succeeds,
the outcome INSUFFICIENT_BALANCE; a user with an existing row gets
INSUFFICIENT_BALANCE with no write.  The write is not best-effort: when it
throws, the exception escapes instead of INSUFFICIENT_BALANCE being
returned. -/
theorem insufficient_balance_free_write
    (envA envB envC : Env) (userId : String) (platform : ApplicationPlatform)
    (userA userB : User) (pkA pkB : PubKey) (bA bB : Int) (rowA : SubscriptionRow)
    (eC : String)
    (huA : envA.getUserById userId = .ok (some userA))
    (hfA : userA.userSubscriptions.find? (fun s => s.platform == platform) = none)
    (hpA : envA.parsePublicKey userA.personalWalletPubKey = .ok pkA)
    (hbA : envA.getAccountBalance pkA = .ok (some bA))
    (hA0 : bA ≠ 0)
    (hAlt : bA < HOBBY_PLAN_FEE)
    (hwA : envA.updateUserSubscription userA.id .FREE platform none = .ok rowA)
    (huB : envB.getUserById userId = .ok (some userB))
    (hfB : userB.userSubscriptions.find? (fun s => s.platform == platform)
      = some ⟨platform, .FREE⟩)
    (hpB : envB.parsePublicKey userB.personalWalletPubKey = .ok pkB)
    (hbB : envB.getAccountBalance pkB = .ok (some bB))
    (hB0 : bB ≠ 0)
    (hBlt : bB < HOBBY_PLAN_FEE)
    (huC : envC.getUserById userId = .ok (some userA))
    (hpC : envC.parsePublicKey userA.personalWalletPubKey = .ok pkA)
    (hbC : envC.getAccountBalance pkA = .ok (some bA))
    (hwC : envC.updateUserSubscription userA.id .FREE platform none = .error eC) :
    ((chargeSubscription envA userId .HOBBY platform).1 =
        .ok ⟨false, .INSUFFICIENT_BALANCE, none⟩ ∧
      (chargeSubscription envA userId .HOBBY platform).2 =
        [.balanceQuery, .subscriptionWrite .FREE]) ∧
    ((chargeSubscription envB userId .HOBBY platform).1 =
        .ok ⟨false, .INSUFFICIENT_BALANCE, none⟩ ∧
      (chargeSubscription envB userId .HOBBY platform).2 = [.balanceQuery]) ∧
    (chargeSubscription envC userId .HOBBY platform).1 = .error eC := by
  have hngeA : ¬ (bA ≥ HOBBY_PLAN_FEE) := not_le.mpr hAlt
  have hngeB : ¬ (bB ≥ HOBBY_PLAN_FEE) := not_le.mpr hBlt
  have hfee0 : jsFalsy (getPlanFee SubscriptionPlan.HOBBY) = false := rfl
  have hfeeD : (getPlanFee SubscriptionPlan.HOBBY).getD 0 = HOBBY_PLAN_FEE := rfl
  refine ⟨⟨?_, ?_⟩, ⟨?_, ?_⟩, ?_⟩ <;>
    simp [chargeSubscription, huA, hfA, hpA, hbA, hA0, hngeA, hwA, huB, hfB, hpB, hbB, hB0,
      hngeB, huC, hpC, hbC, hwC, hfee0, hfeeD, jsFalsy_some, isInvalidUpgrade,
      SUBSCRIPTION_HIERARCHY]

/-- C9 (amended) witness: balance 100 with no row (write succeeds), with a
FREE row, and with a throwing write. -/
theorem insufficient_balance_free_write_witness :
    ((chargeSubscription envLowBalance "u1" .HOBBY .BOOSTS).1 =
        .ok ⟨false, .INSUFFICIENT_BALANCE, none⟩ ∧
      (chargeSubscription envLowBalance "u1" .HOBBY .BOOSTS).2 =
        [.balanceQuery, .subscriptionWrite .FREE]) ∧
    ((chargeSubscription envLowBalanceFree "u1" .HOBBY .BOOSTS).1 =
        .ok ⟨false, .INSUFFICIENT_BALANCE, none⟩ ∧
      (chargeSubscription envLowBalanceFree "u1" .HOBBY .BOOSTS).2 = [.balanceQuery]) ∧
    (chargeSubscription envWriteFail "u1" .HOBBY .BOOSTS).1 = .error "write failed" :=
  insufficient_balance_free_write envLowBalance envLowBalanceFree envWriteFail "u1" .BOOSTS
    userNoSub userFree ⟨"pub1"⟩ ⟨"pub3"⟩ 100 100 ⟨some "12/31/2030"⟩ "write failed" rfl rfl
    rfl rfl (by decide) (by decide) rfl rfl rfl rfl rfl (by decide) (by decide) rfl rfl rfl
    rfl

/-- A successful result of the subscription-write step always carries the
PLAN_UPGRADED outcome with success = true. -/
theorem updateUserSubscriptionStep_ok (env : Env) (uid : String)
    (plan : BoostsSubscriptionPlan) (pf : ApplicationPlatform)
    (o : SubscriptionOutcome) (eff : List Effect)
    (h : updateUserSubscriptionStep env uid plan pf = .ok (o, eff)) :
    o.success = true ∧ o.message = .PLAN_UPGRADED := by
  unfold updateUserSubscriptionStep at h
  split at h
  · simp at h
  · split at h
    · simp at h
    · simp only [Except.ok.injEq, Prod.mk.injEq] at h
      obtain ⟨ho, -⟩ := h
      subst ho
      exact ⟨rfl, rfl⟩

/-- C10: over every environment and input, each outcome the three entry
points return (rather than throw) has its success flag equal to true
exactly when its message is PLAN_UPGRADED, DONATION_MADE or
TRANSACTION_SUCCESS; every other reason code comes with success = false. -/
theorem outcome_success_iff_success_message
    (env : Env) (userId : String) (plan : BoostsSubscriptionPlan)
    (platform : ApplicationPlatform) (damt pamt : Int) (ptype : PromotionType) :
    (∀ o tr, chargeSubscription env userId plan platform = (.ok o, tr) →
      o.success = isSuccessMessage o.message) ∧
    (∀ o tr, chargeDonation env userId damt = (.ok o, tr) →
      o.success = isSuccessMessage o.message) ∧
    (∀ o tr, chargePromotion env userId pamt ptype = (.ok o, tr) →
      o.success = isSuccessMessage o.message) := by
  refine ⟨?_, ?_, ?_⟩ <;> intro o tr h
  · unfold chargeSubscription at h
    repeat' first
      | split at h
      | (dsimp only at h)
    all_goals first
      | (simp only [Prod.mk.injEq, Except.ok.injEq] at h
         obtain ⟨ho, -⟩ := h
         subst ho
         first
           | rfl
           | (obtain ⟨hs, hm⟩ := updateUserSubscriptionStep_ok _ _ _ _ _ _ (by assumption)
              simp [isSuccessMessage, hs, hm]))
      | simp at h
  · unfold chargeDonation at h
    repeat' first
      | split at h
      | (dsimp only at h)
    all_goals first
      | (simp only [Prod.mk.injEq, Except.ok.injEq] at h
         obtain ⟨ho, -⟩ := h
         subst ho
         rfl)
      | simp at h
  · unfold chargePromotion at h
    repeat' first
      | split at h
      | (dsimp only at h)
    all_goals first
      | (simp only [Prod.mk.injEq, Except.ok.injEq] at h
         obtain ⟨ho, -⟩ := h
         subst ho
         rfl)
      | simp at h

/-- C10 witness: the theorem instantiated at the cooperative environment on
the three success outcomes it actually produces. -/
theorem outcome_success_iff_success_message_witness :
    (⟨true, .PLAN_UPGRADED, some "12/31/2030"⟩ : SubscriptionOutcome).success =
      isSuccessMessage (⟨true, .PLAN_UPGRADED, some "12/31/2030"⟩ : SubscriptionOutcome).message ∧
    (⟨true, .DONATION_MADE⟩ : SimpleOutcome).success =
      isSuccessMessage (⟨true, .DONATION_MADE⟩ : SimpleOutcome).message ∧
    (⟨true, .TRANSACTION_SUCCESS⟩ : SimpleOutcome).success =
      isSuccessMessage (⟨true, .TRANSACTION_SUCCESS⟩ : SimpleOutcome).message :=
  ⟨(outcome_success_iff_success_message baseEnv "u1" .HOBBY .BOOSTS 1 1 "X").1
      ⟨true, .PLAN_UPGRADED, some "12/31/2030"⟩
      [.balanceQuery, .transferCall 495000, .subscriptionWrite .HOBBY] rfl,
    (outcome_success_iff_success_message baseEnv "u1" .HOBBY .BOOSTS 1 1 "X").2.1
      ⟨true, .DONATION_MADE⟩
      [.balanceQuery, .transferCall 999995000, .donationMark] rfl,
    (outcome_success_iff_success_message baseEnv "u1" .HOBBY .BOOSTS 1 1 "X").2.2
      ⟨true, .TRANSACTION_SUCCESS⟩
      [.balanceQuery, .transferCall (1 - SIGNATURE_FEE), .promotionRecord] rfl⟩
